import Mathlib

/-!
Formal model of the CarEmissionsTracker emissions-calculation engine.

JavaScript numbers are modelled as exact rationals (`ℚ`); the result of
`parseFloat` is modelled as `Option ℚ`, with `none` playing the role of
`NaN` (arithmetic propagates `none`, and the validation guards treat
`none` exactly as the `isNaN` checks in the source do).
`Number.prototype.toFixed(2)` is modelled as rounding to the nearest
multiple of 1/100 (`round2`), and `toFixed(0)` as rounding to the
nearest integer (`round`).

The main definitions are translated from the current `HomeScreen`
revision (the file with the `Subway` vehicle and normalized stored
miles); the earlier revision, which persists the raw entered distance
string, is embedded in the `Rev001` namespace.  The derived-metric
definitions of the history screen are embedded as `history`-prefixed
functions.  Definitions whose names start with `spec` transcribe the
specification's wording, for comparison with the source-derived ones.
-/

/-- Result of a JavaScript `parseFloat`: `none` models `NaN`. -/
abbrev JSNum := Option ℚ

/-- Rounding to 2 decimal places: the numeric value of `x.toFixed(2)`. -/
def round2 (q : ℚ) : ℚ := (round (q * 100) : ℤ) / 100

/-- Renders an integer count of hundredths as the 2-decimal string produced by `toFixed(2)`. -/
def intToFixed2 (n : ℤ) : String :=
  (if n < 0 then "-" else "") ++ toString (n.natAbs / 100) ++ "." ++
    (if n.natAbs % 100 < 10 then "0" else "") ++ toString (n.natAbs % 100)

/-- Model of `x.toFixed(2)` as a string, for a finite (non-`NaN`) value. -/
def toFixed2Str (q : ℚ) : String := intToFixed2 (round (q * 100))

/-- Model of `x.toFixed(2)` including the `NaN` case, which renders as the string `"NaN"`. -/
def optToFixed2 (x : JSNum) : String :=
  match x with
  | none => "NaN"
  | some q => toFixed2Str q

/-- Entry of the static vehicle catalog (`vehicleData` in the source). -/
structure VehicleData where
  type : String
  mpg : ℚ
  description : String

/-- The vehicle catalog of the current HomeScreen revision. `mpg` is MPG for
gas vehicles and MPGe for electric-equivalent vehicles (E-bike, Subway). -/
def vehicleData (key : String) : Option VehicleData :=
  match key with
  | "Small Car" => some ⟨"Small Car", 32, "Compact or sedan"⟩
  | "Hybrid Car" => some ⟨"Hybrid Car", 45, "Compact or sedan"⟩
  | "Large Car" => some ⟨"Large Car", 27, "Full-size sedan"⟩
  | "SUV" => some ⟨"SUV", 23, "Sport Utility Vehicle"⟩
  | "Truck" => some ⟨"Truck", 18, "Pickup truck"⟩
  | "Bus" => some ⟨"Bus", 6, "Transit bus"⟩
  | "E-bike" => some ⟨"E-bike", 842, "Electric bike"⟩
  | "Motorcycle" => some ⟨"Motorcycle", 40, "Motorcycle"⟩
  | "Subway" => some ⟨"Subway", 198, "Subway/Metro rail"⟩
  | _ => none

/-- Outcome of `validateInputs`.  The source shows an alert and returns
`false` in the three failure cases; the alert titles distinguish them. -/
inductive ValidationResult where
  | ok
  | invalidDistance
  | invalidEfficiency
  | efficiencySuspicious
  deriving DecidableEq

/-- The `validateInputs` function of the current HomeScreen revision.
`miles` and `fuelEfficiency` are the `parseFloat` results of the two
input fields.  The `efficiencySuspicious` outcome is the soft MPG
warning whose alert offers a `Continue` button calling
`calculateEmissions(true)`. -/
def validateInputs (isMetric : Bool) (vehicleType : String)
    (miles fuelEfficiency : JSNum) : ValidationResult :=
  match miles with
  | none => .invalidDistance
  | some d =>
    if d ≤ 0 then .invalidDistance
    else if vehicleType ≠ "E-bike" ∧ vehicleType ≠ "Subway" then
      match fuelEfficiency with
      | none => .invalidEfficiency
      | some f =>
        if f ≤ 0 then .invalidEfficiency
        else if ¬isMetric ∧ 150 < f then .efficiencySuspicious
        else .ok
    else .ok

/-- The arithmetic core of `calculateEmissions` (the body of the
`setTimeout` callback) on finite values: given the unit flag, the
vehicle type, the distance already normalized to miles, and the parsed
fuel-efficiency input, returns the rounded (day, week, year) triple.
The in-place `*= 0.453592` metric conversions of the source become the
`if isMetric` expressions.  The source computes `milesNum / mpgValue`
with JavaScript division; no claim exercises a zero divisor, where the
rational model (division by zero yields 0) and JavaScript (Infinity)
would part ways. -/
def computeEmissions (isMetric : Bool) (vehicleType : String)
    (milesNum fe : ℚ) : ℚ × ℚ × ℚ :=
  if vehicleType = "Bus" then
    let perMilePerPerson : ℚ := 22.45 / 6 / 15
    let day := milesNum * perMilePerPerson
    let week := day * 5
    let year := day * 5 * 52
    if isMetric then
      (round2 (day * 0.453592), round2 (week * 0.453592), round2 (year * 0.453592))
    else (round2 day, round2 week, round2 year)
  else if vehicleType = "E-bike" ∨ vehicleType = "Subway" then
    let mpge := ((vehicleData vehicleType).map VehicleData.mpg).getD 0
    let kWhPerMile := 33.7 / mpge
    let co2PerMile := kWhPerMile * 0.92
    let day := milesNum * co2PerMile
    let week := day * 5
    let year := day * 5 * 52
    if isMetric then
      (round2 (day * 0.453592), round2 (week * 0.453592), round2 (year * 0.453592))
    else (round2 day, round2 week, round2 year)
  else
    let mpgValue := if ¬isMetric then fe else 235.214 / fe
    let gallonsUsed := milesNum / mpgValue
    let day := gallonsUsed * 19.6
    let week := day * 5
    let year := day * 5 * 52
    if isMetric then
      (round2 (day * 0.453592), round2 (week * 0.453592), round2 (year * 0.453592))
    else (round2 day, round2 week, round2 year)

/-- NaN-aware lift of `computeEmissions`: the Bus / E-bike / Subway
branches never read the efficiency input (a dummy 0 is passed, unused),
while the combustion branch yields `NaN` whenever either parse failed. -/
def computeEmissionsJS (isMetric : Bool) (vehicleType : String)
    (milesNum fe : JSNum) : JSNum × JSNum × JSNum :=
  if vehicleType = "Bus" ∨ vehicleType = "E-bike" ∨ vehicleType = "Subway" then
    match milesNum with
    | none => (none, none, none)
    | some m =>
      let t := computeEmissions isMetric vehicleType m 0
      (some t.1, some t.2.1, some t.2.2)
  else
    match milesNum, fe with
    | some m, some f =>
      let t := computeEmissions isMetric vehicleType m f
      (some t.1, some t.2.1, some t.2.2)
    | _, _ => (none, none, none)

/-- The form state read by `calculateEmissions`.  `milesStr` and
`fuelEffStr` are the raw text-field contents; `miles` and
`fuelEfficiency` model `parseFloat` of those strings (the concrete
states used below keep the pairs consistent). -/
structure CalcState where
  isMetric : Bool
  milesStr : String
  miles : JSNum
  fuelEffStr : String
  fuelEfficiency : JSNum
  vehicleType : String

/-- The persisted `CalculationRecord` (`id` and `date` fields, which
only carry the wall-clock timestamp, are omitted). -/
structure CalculationRecord where
  miles : String
  fuelEfficiency : String
  emissionsPerDay : String
  emissionsPerWeek : String
  emissionsPerYear : String
  vehicleType : String

/-- The `calculateEmissions` function of the current HomeScreen
revision: validates unless `bypassValidation`, normalizes the entered
distance to miles, computes the rounded triple, and builds the record
that `saveCalculationRecord` persists (`miles` stored as
`milesNum.toFixed(2)`).  `none` models the early `return` on failed
validation. -/
def calculateEmissions (bypassValidation : Bool) (s : CalcState) :
    Option CalculationRecord :=
  if ¬bypassValidation ∧
      validateInputs s.isMetric s.vehicleType s.miles s.fuelEfficiency ≠ .ok then
    none
  else
    let inputDistance := s.miles
    let milesNum := if s.isMetric then inputDistance.map (fun d => d / 1.60934)
      else inputDistance
    let t := computeEmissionsJS s.isMetric s.vehicleType milesNum s.fuelEfficiency
    some
      { miles := optToFixed2 milesNum
        fuelEfficiency := s.fuelEffStr
        emissionsPerDay := optToFixed2 t.1
        emissionsPerWeek := optToFixed2 t.2.1
        emissionsPerYear := optToFixed2 t.2.2
        vehicleType := s.vehicleType }

/-- The displayed weekly figure: `(dailyEmissions * 5).toFixed(0)`,
where `dailyEmissions` is `parseFloat` of the already-rounded daily
string. -/
def weeklyEmissionsDisplay (dailyEmissions : ℚ) : ℤ := round (dailyEmissions * 5)

/-- The displayed yearly figure: `(dailyEmissions * 5 * 52).toFixed(0)`. -/
def yearlyEmissionsDisplay (dailyEmissions : ℚ) : ℤ := round (dailyEmissions * 5 * 52)

/-- The displayed carbon-credit figure:
`(dailyEmissions * 5 * 52 / (isMetric ? 1000 : 2204.62)).toFixed(2)`. -/
def yearlyCarbonCredits (isMetric : Bool) (dailyEmissions : ℚ) : ℚ :=
  round2 (dailyEmissions * 5 * 52 / (if isMetric then 1000 else 2204.62))

/-- The displayed urban-tree figure:
`(parseFloat(yearlyEmissions) / (isMetric ? 39.14 : 86.17)).toFixed(0)`,
taking the already-0-decimal-rounded yearly figure as input. -/
def urbanTrees (isMetric : Bool) (yearlyEmissions : ℤ) : ℤ :=
  round ((yearlyEmissions : ℚ) / (if isMetric then 39.14 else 86.17))

/-- The history screen's per-record carbon-credit computation:
`yearKg = unit == 'kg' ? yearNum : yearNum * 0.453592` followed by
`(yearKg / 1000).toFixed(2)`. -/
def historyCarbonCredits (emissionsUnit : String) (yearNum : ℚ) : ℚ :=
  round2 ((if emissionsUnit = "kg" then yearNum else yearNum * 0.453592) / 1000)

/-- The distance conversion of `handleToggleMeasurement`: starting from
unit flag `isMetric`, the entered value is divided (Metric → Imperial)
or multiplied (Imperial → Metric) by 1.60934 and re-rendered with
`toFixed(2)`. -/
def toggleConvert (isMetric : Bool) (d : ℚ) : ℚ :=
  round2 (if isMetric then d / 1.60934 else d * 1.60934)

namespace Rev001

/-- The vehicle catalog of the earlier HomeScreen revision (no Subway;
the E-bike entry carries the unused placeholder 0). -/
def vehicleData (key : String) : Option VehicleData :=
  match key with
  | "Small Car" => some ⟨"Small Car", 32, "Compact or sedan"⟩
  | "Hybrid Car" => some ⟨"Hybrid Car", 45, "Compact or sedan"⟩
  | "Large Car" => some ⟨"Large Car", 27, "Full-size sedan"⟩
  | "SUV" => some ⟨"SUV", 25, "Sport Utility Vehicle"⟩
  | "Truck" => some ⟨"Truck", 18, "Pickup truck"⟩
  | "Bus" => some ⟨"Bus", 6, "Transit bus"⟩
  | "E-bike" => some ⟨"E-bike", 0, "Electric bike"⟩
  | "Motorcycle" => some ⟨"Motorcycle", 40, "Motorcycle"⟩
  | _ => none

/-- The `validateInputs` of the earlier revision: only E-bike is exempt
from the efficiency check. -/
def validateInputs (isMetric : Bool) (vehicleType : String)
    (miles fuelEfficiency : JSNum) : ValidationResult :=
  match miles with
  | none => .invalidDistance
  | some d =>
    if d ≤ 0 then .invalidDistance
    else if vehicleType ≠ "E-bike" then
      match fuelEfficiency with
      | none => .invalidEfficiency
      | some f =>
        if f ≤ 0 then .invalidEfficiency
        else if ¬isMetric ∧ 150 < f then .efficiencySuspicious
        else .ok
    else .ok

/-- The arithmetic core of the earlier revision's `calculateEmissions`:
the E-bike branch uses the fixed `0.04 kWh/mi * 0.92`, and the
Motorcycle branch repeats the combustion formula verbatim, as in the
source. -/
def computeEmissions (isMetric : Bool) (vehicleType : String)
    (milesNum fe : ℚ) : ℚ × ℚ × ℚ :=
  if vehicleType = "Bus" then
    let perMilePerPerson : ℚ := 22.45 / 6 / 15
    let day := milesNum * perMilePerPerson
    let week := day * 5
    let year := day * 5 * 52
    if isMetric then
      (round2 (day * 0.453592), round2 (week * 0.453592), round2 (year * 0.453592))
    else (round2 day, round2 week, round2 year)
  else if vehicleType = "E-bike" then
    let day := milesNum * 0.04 * 0.92
    let week := day * 5
    let year := day * 5 * 52
    if isMetric then
      (round2 (day * 0.453592), round2 (week * 0.453592), round2 (year * 0.453592))
    else (round2 day, round2 week, round2 year)
  else if vehicleType = "Motorcycle" then
    let mpgValue := if ¬isMetric then fe else 235.214 / fe
    let gallonsUsed := milesNum / mpgValue
    let day := gallonsUsed * 19.6
    let week := day * 5
    let year := day * 5 * 52
    if isMetric then
      (round2 (day * 0.453592), round2 (week * 0.453592), round2 (year * 0.453592))
    else (round2 day, round2 week, round2 year)
  else
    let mpgValue := if ¬isMetric then fe else 235.214 / fe
    let gallonsUsed := milesNum / mpgValue
    let day := gallonsUsed * 19.6
    let week := day * 5
    let year := day * 5 * 52
    if isMetric then
      (round2 (day * 0.453592), round2 (week * 0.453592), round2 (year * 0.453592))
    else (round2 day, round2 week, round2 year)

/-- NaN-aware lift for the earlier revision. -/
def computeEmissionsJS (isMetric : Bool) (vehicleType : String)
    (milesNum fe : JSNum) : JSNum × JSNum × JSNum :=
  if vehicleType = "Bus" ∨ vehicleType = "E-bike" then
    match milesNum with
    | none => (none, none, none)
    | some m =>
      let t := computeEmissions isMetric vehicleType m 0
      (some t.1, some t.2.1, some t.2.2)
  else
    match milesNum, fe with
    | some m, some f =>
      let t := computeEmissions isMetric vehicleType m f
      (some t.1, some t.2.1, some t.2.2)
    | _, _ => (none, none, none)

/-- The `calculateEmissions` of the earlier revision.  The decisive
difference: the persisted record stores `miles: currentMiles`, the raw
entered string, with no normalization to miles. -/
def calculateEmissions (bypassValidation : Bool) (s : CalcState) :
    Option CalculationRecord :=
  if ¬bypassValidation ∧
      validateInputs s.isMetric s.vehicleType s.miles s.fuelEfficiency ≠ .ok then
    none
  else
    let inputDistance := s.miles
    let milesNum := if s.isMetric then inputDistance.map (fun d => d / 1.60934)
      else inputDistance
    let t := computeEmissionsJS s.isMetric s.vehicleType milesNum s.fuelEfficiency
    some
      { miles := s.milesStr
        fuelEfficiency := s.fuelEffStr
        emissionsPerDay := optToFixed2 t.1
        emissionsPerWeek := optToFixed2 t.2.1
        emissionsPerYear := optToFixed2 t.2.2
        vehicleType := s.vehicleType }

end Rev001

/-- Specification wording: the input distance normalized to miles
(divide by 1.60934 when the unit system is Metric). -/
def spec_normalizeToMiles (isMetric : Bool) (d : ℚ) : ℚ :=
  if isMetric then d / 1.60934 else d

/-- Specification wording for the combustion formula: effective
`mpg` is the entered value (Imperial) or `235.214 / value` (Metric);
`dayLbs = (dNorm / mpg) * 19.6`; `weekLbs = 5 * dayLbs`;
`yearLbs = 260 * dayLbs`; under Metric each figure is additionally
multiplied by 0.453592; each figure is independently rounded to 2
decimal places. -/
def spec_combustion (isMetric : Bool) (d fe : ℚ) : ℚ × ℚ × ℚ :=
  let dNorm := spec_normalizeToMiles isMetric d
  let mpg := if isMetric then 235.214 / fe else fe
  let dayLbs := dNorm / mpg * 19.6
  if isMetric then
    (round2 (dayLbs * 0.453592), round2 (5 * dayLbs * 0.453592),
      round2 (260 * dayLbs * 0.453592))
  else (round2 dayLbs, round2 (5 * dayLbs), round2 (260 * dayLbs))

/-- Validation rules as amended: distance must parse `> 0` else
`invalidDistance`; for every type except E-bike and Subway (Bus
included) the efficiency must parse `> 0` else `invalidEfficiency`;
under Imperial an efficiency above 150 yields the soft
`efficiencySuspicious` outcome. -/
def spec_validate (isMetric : Bool) (vehicleType : String)
    (miles fuelEfficiency : JSNum) : ValidationResult :=
  match miles with
  | none => .invalidDistance
  | some d =>
    if d ≤ 0 then .invalidDistance
    else if vehicleType = "E-bike" ∨ vehicleType = "Subway" then .ok
    else
      match fuelEfficiency with
      | none => .invalidEfficiency
      | some f =>
        if f ≤ 0 then .invalidEfficiency
        else if isMetric = false ∧ 150 < f then .efficiencySuspicious
        else .ok

/-- Specification wording for carbon credits: yearly emissions first
normalized to kilograms (divide by 2.20462 when the display unit is
lbs), then divided by 1000, rounded to 2 decimals. -/
def spec_carbonCredits (isMetric : Bool) (yearlyDisplayUnit : ℚ) : ℚ :=
  round2 ((if isMetric then yearlyDisplayUnit else yearlyDisplayUnit / 2.20462) / 1000)

/-- Rounding to 2 decimals moves a value by at most 1/200. -/
lemma abs_round2_sub_le (q : ℚ) : |round2 q - q| ≤ 1 / 200 := by
  have h := abs_sub_round (q * 100)
  unfold round2
  calc |(round (q * 100) : ℚ) / 100 - q|
      = |((round (q * 100) : ℚ) - q * 100) / 100| := by congr 1; ring
    _ = |(round (q * 100) : ℚ) - q * 100| / |(100 : ℚ)| := abs_div _ _
    _ = |q * 100 - (round (q * 100) : ℚ)| / 100 := by rw [abs_sub_comm]; norm_num
    _ ≤ (1 / 2) / 100 := by gcongr
    _ = 1 / 200 := by norm_num

/-- Claim C1: for every combustion (non-Bus/E-bike/Subway) calculation with
positive distance and positive efficiency, the engine computes
`dayLbs = (dNorm / mpg) * 19.6` with `dNorm = d / 1.60934` under Metric and
`d` otherwise, `mpg` the entered value (Imperial) or `235.214 / value`
(Metric), `weekLbs = 5 * dayLbs`, `yearLbs = 260 * dayLbs`, each multiplied
by 0.453592 under Metric, and each independently rounded to 2 decimals. -/
theorem claim_C1 (isMetric : Bool) (vehicleType : String) (d fe : ℚ)
    (hb : vehicleType ≠ "Bus") (he : vehicleType ≠ "E-bike")
    (hs : vehicleType ≠ "Subway") (hd : 0 < d) (hfe : 0 < fe) :
    computeEmissions isMetric vehicleType (if isMetric then d / 1.60934 else d) fe =
      spec_combustion isMetric d fe := by
  have hor : ¬(vehicleType = "E-bike" ∨ vehicleType = "Subway") := by
    rintro (h | h)
    · exact he h
    · exact hs h
  cases isMetric <;>
    simp only [computeEmissions, spec_combustion, spec_normalizeToMiles,
      if_neg hb, if_neg hor, Bool.false_eq_true, if_false, if_true, ite_true,
      ite_false, not_false_iff, Prod.mk.injEq] <;>
    norm_num <;>
    exact ⟨congrArg round2 (by ring), congrArg round2 (by ring)⟩

/-- Witness for C1 at the SUV default scenario (35 miles, 23 MPG, Imperial). -/
theorem claim_C1_witness :
    computeEmissions false "SUV" 35 23 = spec_combustion false 35 23 := by
  have h := claim_C1 false "SUV" 35 23 (by decide) (by decide) (by decide)
    (by norm_num) (by norm_num)
  simpa using h

/-- Claim C4: the Bus branch ignores the efficiency input entirely, its
per-person rate is the fixed `22.45 / 6 / 15` lbs per mile, and 10 miles
under Imperial yields a daily figure of 2.49 lbs. -/
theorem claim_C4 :
    (∀ (isMetric : Bool) (milesNum fe fe' : JSNum),
        computeEmissionsJS isMetric "Bus" milesNum fe =
          computeEmissionsJS isMetric "Bus" milesNum fe') ∧
    (∀ d fe : ℚ,
        (computeEmissions false "Bus" d fe).1 = round2 (d * (22.45 / 6 / 15))) ∧
    (computeEmissions false "Bus" 10 0).1 = 2.49 := by
  refine ⟨?_, ?_, ?_⟩
  · intro isMetric milesNum fe fe'
    cases milesNum <;> rfl
  · intro d fe
    rfl
  · show round2 ((10 : ℚ) * (22.45 / 6 / 15)) = 2.49
    unfold round2
    norm_num [round_eq]

/-- Claim C5: the E-bike and Subway branches ignore the efficiency input
and use only the catalog MPGe (842 and 198), converted via
`kWhPerMile = 33.7 / mpge` and `co2PerMile = kWhPerMile * 0.92`; E-bike at
10 miles under Imperial yields a daily figure of 0.37 lbs. -/
theorem claim_C5 :
    (∀ (isMetric : Bool) (milesNum fe fe' : JSNum),
        computeEmissionsJS isMetric "E-bike" milesNum fe =
          computeEmissionsJS isMetric "E-bike" milesNum fe' ∧
        computeEmissionsJS isMetric "Subway" milesNum fe =
          computeEmissionsJS isMetric "Subway" milesNum fe') ∧
    ((vehicleData "E-bike").map VehicleData.mpg = some 842 ∧
      (vehicleData "Subway").map VehicleData.mpg = some 198) ∧
    (∀ d fe : ℚ,
        (computeEmissions false "E-bike" d fe).1 = round2 (d * (33.7 / 842 * 0.92)) ∧
        (computeEmissions false "Subway" d fe).1 = round2 (d * (33.7 / 198 * 0.92))) ∧
    (computeEmissions false "E-bike" 10 0).1 = 0.37 := by
  refine ⟨?_, ⟨rfl, rfl⟩, ?_, ?_⟩
  · intro isMetric milesNum fe fe'
    constructor <;> (cases milesNum <;> rfl)
  · intro d fe
    exact ⟨rfl, rfl⟩
  · show round2 ((10 : ℚ) * (33.7 / 842 * 0.92)) = 0.37
    unfold round2
    norm_num [round_eq]

/-- Counterexample to C7: at 35 miles, 23 MPG, Imperial, the weekly figure
computed by the code is 149.13, not the claimed 149.17 (and the yearly is
7754.78, not 7756.87). -/
theorem claim_C7_cex :
    (computeEmissions false "SUV" 35 23).2.1 = 149.13 ∧
    (149.13 : ℚ) ≠ 149.17 ∧
    (computeEmissions false "SUV" 35 23).2.2 = 7754.78 ∧
    (7754.78 : ℚ) ≠ 7756.87 := by
  refine ⟨?_, by norm_num, ?_, by norm_num⟩
  · show round2 ((35 : ℚ) / 23 * 19.6 * 5) = 149.13
    unfold round2
    norm_num [round_eq]
  · show round2 ((35 : ℚ) / 23 * 19.6 * 5 * 52) = 7754.78
    unfold round2
    norm_num [round_eq]

/-- Claim C7 as amended: for distance 35 miles, SUV (catalog default 23
MPG), Imperial, the computed triple is day 29.83, week 149.13, year
7754.78, each rounded from the unrounded daily rate. -/
theorem claim_C7 :
    (vehicleData "SUV").map VehicleData.mpg = some 23 ∧
    computeEmissions false "SUV" 35 23 = (29.83, 149.13, 7754.78) := by
  refine ⟨rfl, ?_⟩
  show (round2 ((35 : ℚ) / 23 * 19.6), round2 ((35 : ℚ) / 23 * 19.6 * 5),
      round2 ((35 : ℚ) / 23 * 19.6 * 5 * 52)) = (29.83, 149.13, 7754.78)
  unfold round2
  norm_num [round_eq]

/-- Each branch of the engine rounds day, week and year independently
from one unrounded daily rate. -/
lemma roundTriple_exists (isMetric : Bool) (day : ℚ) :
    ∃ day0 : ℚ,
      (if isMetric then
          (round2 (day * 0.453592), round2 (day * 5 * 0.453592),
            round2 (day * 5 * 52 * 0.453592))
        else (round2 day, round2 (day * 5), round2 (day * 5 * 52))) =
        (round2 day0, round2 (day0 * 5), round2 (day0 * 260)) := by
  cases isMetric
  · refine ⟨day, ?_⟩
    have h3 : round2 (day * 5 * 52) = round2 (day * 260) := congrArg round2 (by ring)
    simp only [Bool.false_eq_true, if_false, h3]
  · refine ⟨day * 0.453592, ?_⟩
    have h2 : round2 (day * 5 * 0.453592) = round2 (day * 0.453592 * 5) :=
      congrArg round2 (by ring)
    have h3 : round2 (day * 5 * 52 * 0.453592) = round2 (day * 0.453592 * 260) :=
      congrArg round2 (by ring)
    simp only [if_true, h2, h3]

/-- Claim C2 as amended: the persisted weekly and yearly figures are
computed from the unrounded daily rate and independently rounded to 2
decimals; the week/year figures recomputed for display, however, are
derived from the already-rounded daily value (`parseFloat` of the
persisted day) and rounded to 0 decimals.  The last conjuncts show the
two schemes genuinely differ at the 1.004-lbs/day input. -/
theorem claim_C2 :
    (∀ (isMetric : Bool) (vehicleType : String) (milesNum fe : ℚ),
        ∃ day0 : ℚ, computeEmissions isMetric vehicleType milesNum fe =
          (round2 day0, round2 (day0 * 5), round2 (day0 * 260))) ∧
    (∀ dailyEmissions : ℚ,
        weeklyEmissionsDisplay dailyEmissions = round (dailyEmissions * 5) ∧
        yearlyEmissionsDisplay dailyEmissions = round (dailyEmissions * 5 * 52)) ∧
    ((computeEmissions false "SUV" 1.004 19.6).2.1 = 5.02 ∧
      round2 ((computeEmissions false "SUV" 1.004 19.6).1 * 5) = 5 ∧
      (5.02 : ℚ) ≠ 5) := by
  refine ⟨?_, fun dailyEmissions => ⟨rfl, rfl⟩, ?_, ?_, by norm_num⟩
  · intro isMetric vehicleType milesNum fe
    by_cases hb : vehicleType = "Bus"
    · simpa only [computeEmissions, hb, if_pos rfl] using
        roundTriple_exists isMetric (milesNum * (22.45 / 6 / 15))
    · by_cases hes : vehicleType = "E-bike" ∨ vehicleType = "Subway"
      · simpa only [computeEmissions, if_neg hb, if_pos hes] using
          roundTriple_exists isMetric
            (milesNum * (33.7 / ((vehicleData vehicleType).map VehicleData.mpg).getD 0 * 0.92))
      · simpa only [computeEmissions, if_neg hb, if_neg hes] using
          roundTriple_exists isMetric
            (milesNum / (if ¬isMetric then fe else 235.214 / fe) * 19.6)
  · show round2 ((1.004 : ℚ) / 19.6 * 19.6 * 5) = 5.02
    unfold round2
    norm_num [round_eq]
  · have h1 : (computeEmissions false "SUV" 1.004 19.6).1 = 1 := by
      show round2 ((1.004 : ℚ) / 19.6 * 19.6) = 1
      unfold round2
      norm_num [round_eq]
    rw [h1]
    unfold round2
    norm_num [round_eq]

/-- Counterexample to C2: with an unrounded daily rate of 1.004 lbs
(distance 1.004 miles at 19.6 MPG, Imperial), the persisted yearly
figure is 261.04 (rounded from the unrounded rate), but the yearly
figure recomputed for display from the rounded daily value is 260,
which differs from every value obtained from the unrounded daily rate
(261.04 at 2 decimals, 261 at 0 decimals). -/
theorem claim_C2_cex :
    (computeEmissions false "SUV" 1.004 19.6).1 = 1 ∧
    (computeEmissions false "SUV" 1.004 19.6).2.2 = 261.04 ∧
    yearlyEmissionsDisplay ((computeEmissions false "SUV" 1.004 19.6).1) = 260 ∧
    round ((1.004 : ℚ) * 5 * 52) = 261 ∧
    yearlyEmissionsDisplay ((computeEmissions false "SUV" 1.004 19.6).1) ≠
      round ((1.004 : ℚ) * 5 * 52) := by
  have h1 : (computeEmissions false "SUV" 1.004 19.6).1 = 1 := by
    show round2 ((1.004 : ℚ) / 19.6 * 19.6) = 1
    unfold round2
    norm_num [round_eq]
  have h2 : (computeEmissions false "SUV" 1.004 19.6).2.2 = 261.04 := by
    show round2 ((1.004 : ℚ) / 19.6 * 19.6 * 5 * 52) = 261.04
    unfold round2
    norm_num [round_eq]
  have h3 : yearlyEmissionsDisplay ((computeEmissions false "SUV" 1.004 19.6).1) = 260 := by
    rw [h1]
    unfold yearlyEmissionsDisplay
    norm_num [round_eq]
  have h4 : round ((1.004 : ℚ) * 5 * 52) = 261 := by norm_num [round_eq]
  exact ⟨h1, h2, h3, h4, by rw [h3, h4]; decide⟩

/-- Counterexample to C3: the claim exempts Bus from the efficiency
check, but the source validates the efficiency for Bus (only E-bike and
Subway are exempt): a Bus submission whose efficiency does not parse is
rejected with `invalidEfficiency`. -/
theorem claim_C3_cex :
    validateInputs false "Bus" (some 10) none = .invalidEfficiency ∧
    validateInputs false "Bus" (some 10) none ≠ .ok := by
  exact ⟨rfl, by decide⟩

/-- Claim C3 as amended: a distance that does not parse `> 0` is
rejected with `invalidDistance`; the efficiency check applies to every
type except E-bike and Subway (Bus included), rejecting with
`invalidEfficiency` when it does not parse `> 0`; an Imperial
efficiency above 150 yields the soft `efficiencySuspicious` outcome,
which the caller can override since the bypass flag skips validation
entirely and always produces a record. -/
theorem claim_C3 :
    (∀ (isMetric : Bool) (vehicleType : String) (miles fuelEfficiency : JSNum),
        validateInputs isMetric vehicleType miles fuelEfficiency =
          spec_validate isMetric vehicleType miles fuelEfficiency) ∧
    (∀ s : CalcState, calculateEmissions true s ≠ none) := by
  constructor
  · intro isMetric vehicleType miles fuelEfficiency
    cases miles with
    | none => rfl
    | some d =>
      simp only [validateInputs, spec_validate]
      by_cases hd : d ≤ 0
      · simp [hd]
      · simp only [if_neg hd]
        by_cases hes : vehicleType = "E-bike" ∨ vehicleType = "Subway"
        · have h2 : ¬(vehicleType ≠ "E-bike" ∧ vehicleType ≠ "Subway") := by tauto
          simp [h2, hes]
        · have h2 : vehicleType ≠ "E-bike" ∧ vehicleType ≠ "Subway" := by tauto
          simp only [if_pos h2, if_neg hes]
          cases fuelEfficiency with
          | none => rfl
          | some f =>
            by_cases hf : f ≤ 0
            · simp [hf]
            · cases isMetric <;> simp [hf]
  · intro s
    simp [calculateEmissions]

/-- Claim C6: carbon credits are the yearly emissions normalized to
kilograms divided by 1000 (yearly lbs / 2204.62 under Imperial, which
agrees exactly with dividing by 2.20462 and then 1000), so a yearly
figure of 2204.62 lbs yields 1.00 credits on both the home screen and
the history screen; urban trees divide the displayed yearly figure by
the hardcoded per-tree constant (86.17 lbs under Imperial), so a yearly
figure of 86.17 lbs yields 1 tree. -/
theorem claim_C6 :
    (∀ dailyEmissions : ℚ,
        yearlyCarbonCredits false dailyEmissions =
          spec_carbonCredits false (dailyEmissions * 5 * 52) ∧
        yearlyCarbonCredits true dailyEmissions =
          spec_carbonCredits true (dailyEmissions * 5 * 52)) ∧
    yearlyCarbonCredits false (2204.62 / 260) = 1 ∧
    historyCarbonCredits "lbs" 2204.62 = 1 ∧
    urbanTrees false (yearlyEmissionsDisplay (86.17 / 260)) = 1 := by
  refine ⟨?_, ?_, ?_, ?_⟩
  · intro dailyEmissions
    constructor
    · unfold yearlyCarbonCredits spec_carbonCredits
      norm_num
      exact congrArg round2 (by rw [div_div]; norm_num)
    · rfl
  · unfold yearlyCarbonCredits round2
    norm_num [round_eq]
  · unfold historyCarbonCredits
    rw [if_neg (by decide : ¬("lbs" : String) = "kg")]
    unfold round2
    norm_num [round_eq]
  · have h1 : yearlyEmissionsDisplay (86.17 / 260) = 86 := by
      unfold yearlyEmissionsDisplay
      norm_num [round_eq]
    rw [h1]
    unfold urbanTrees
    norm_num [round_eq]

/-- Counterexample to C8: a record persisted by the earlier revision
under Metric stores the raw entered kilometre string — for an entered
distance of 10 km the stored miles field is "10", not the normalized
"6.21". -/
theorem claim_C8_cex :
    ∃ r : CalculationRecord,
      Rev001.calculateEmissions false
        (CalcState.mk true "10" (some 10) "7" (some 7) "Small Car") = some r ∧
      r.miles = "10" ∧
      toFixed2Str ((10 : ℚ) / 1.60934) = "6.21" ∧
      r.miles ≠ toFixed2Str ((10 : ℚ) / 1.60934) := by
  have hs : toFixed2Str ((10 : ℚ) / 1.60934) = "6.21" := by
    unfold toFixed2Str
    have h : round (((10 : ℚ) / 1.60934) * 100) = 621 := by norm_num [round_eq]
    rw [h]
    rfl
  exact ⟨_, rfl, rfl, hs, by rw [hs]; decide⟩

/-- Claim C8 as amended: every record persisted by the current
HomeScreen revision stores its distance normalized to miles (the
`toFixed(2)` rendering of the entered distance, divided by 1.60934 when
the unit system was Metric); the earlier revision, by contrast, stored
the raw entered string. -/
theorem claim_C8 (bypassValidation : Bool) (s : CalcState) (r : CalculationRecord)
    (h : calculateEmissions bypassValidation s = some r) :
    r.miles = optToFixed2 (s.miles.map (fun d => spec_normalizeToMiles s.isMetric d)) := by
  unfold calculateEmissions at h
  split at h
  · exact absurd h (by simp)
  · have hr := Option.some.inj h
    subst hr
    show optToFixed2 (if s.isMetric then s.miles.map (fun d => d / 1.60934) else s.miles) =
      optToFixed2 (s.miles.map (fun d => spec_normalizeToMiles s.isMetric d))
    cases hmet : s.isMetric <;> cases hm : s.miles <;>
      simp [spec_normalizeToMiles, optToFixed2]

/-- Witness for C8: with the bypass flag, a Metric state with entered
distance 10 km persists the normalized miles string "6.21". -/
theorem claim_C8_witness :
    ∃ r : CalculationRecord,
      calculateEmissions true (CalcState.mk true "10" (some 10) "6" (some 6) "SUV") =
        some r ∧ r.miles = "6.21" := by
  refine ⟨_, rfl, ?_⟩
  rw [claim_C8 true (CalcState.mk true "10" (some 10) "6" (some 6) "SUV") _ rfl]
  show toFixed2Str ((10 : ℚ) / 1.60934) = "6.21"
  unfold toFixed2Str
  have h : round (((10 : ℚ) / 1.60934) * 100) = 621 := by norm_num [round_eq]
  rw [h]
  rfl

/-- Counterexample to C9: starting under Metric with the entered
distance 0.00885137 km, toggling to Imperial gives 0.01 mi and toggling
back gives 0.02 km, which differs from the original value by
0.01114863, more than the 0.01 two-decimal tolerance. -/
theorem claim_C9_cex :
    toggleConvert true (0.00885137 : ℚ) = 0.01 ∧
    toggleConvert false (0.01 : ℚ) = 0.02 ∧
    |toggleConvert false (toggleConvert true (0.00885137 : ℚ)) - 0.00885137| =
      0.01114863 ∧
    (0.01114863 : ℚ) > 1 / 100 := by
  have h1 : toggleConvert true (0.00885137 : ℚ) = 0.01 := by
    rw [show toggleConvert true (0.00885137 : ℚ) =
      round2 ((0.00885137 : ℚ) / 1.60934) from rfl]
    unfold round2
    norm_num [round_eq]
  have h2 : toggleConvert false (0.01 : ℚ) = 0.02 := by
    rw [show toggleConvert false (0.01 : ℚ) = round2 ((0.01 : ℚ) * 1.60934) from rfl]
    unfold round2
    norm_num [round_eq]
  refine ⟨h1, h2, ?_, by norm_num⟩
  rw [h1, h2]
  norm_num

/-- Claim C9 as amended: an Imperial-to-Metric-and-back toggle restores
the distance to within 0.01, but a Metric-to-Imperial-and-back toggle
is only guaranteed to within 0.0130467 (= 0.005 * 1.60934 + 0.005) and
can miss the 0.01 tolerance. -/
theorem claim_C9 :
    (∀ d : ℚ, |toggleConvert true (toggleConvert false d) - d| < 1 / 100) ∧
    (∀ d : ℚ, |toggleConvert false (toggleConvert true d) - d| ≤ 130467 / 10000000) := by
  constructor
  · intro d
    rw [show toggleConvert false d = round2 (d * 1.60934) from rfl,
      show toggleConvert true (round2 (d * 1.60934)) =
        round2 (round2 (d * 1.60934) / 1.60934) from rfl]
    have h1 : |round2 (d * 1.60934) - d * 1.60934| ≤ 1 / 200 :=
      abs_round2_sub_le (d * 1.60934)
    have h2 : |round2 (round2 (d * 1.60934) / 1.60934) -
        round2 (d * 1.60934) / 1.60934| ≤ 1 / 200 :=
      abs_round2_sub_le (round2 (d * 1.60934) / 1.60934)
    have h3 : |round2 (d * 1.60934) / 1.60934 - d| ≤ (1 / 200) / 1.60934 := by
      have he : round2 (d * 1.60934) / 1.60934 - d =
          (round2 (d * 1.60934) - d * 1.60934) / 1.60934 := by
        field_simp
        ring
      rw [he, abs_div, abs_of_pos (by norm_num : (0 : ℚ) < 1.60934)]
      gcongr
    calc |round2 (round2 (d * 1.60934) / 1.60934) - d|
        = |(round2 (round2 (d * 1.60934) / 1.60934) -
            round2 (d * 1.60934) / 1.60934) +
            (round2 (d * 1.60934) / 1.60934 - d)| := by congr 1; ring
      _ ≤ |round2 (round2 (d * 1.60934) / 1.60934) -
            round2 (d * 1.60934) / 1.60934| +
            |round2 (d * 1.60934) / 1.60934 - d| := abs_add _ _
      _ ≤ 1 / 200 + (1 / 200) / 1.60934 := add_le_add h2 h3
      _ < 1 / 100 := by norm_num
  · intro d
    rw [show toggleConvert true d = round2 (d / 1.60934) from rfl,
      show toggleConvert false (round2 (d / 1.60934)) =
        round2 (round2 (d / 1.60934) * 1.60934) from rfl]
    have h1 : |round2 (d / 1.60934) - d / 1.60934| ≤ 1 / 200 :=
      abs_round2_sub_le (d / 1.60934)
    have h2 : |round2 (round2 (d / 1.60934) * 1.60934) -
        round2 (d / 1.60934) * 1.60934| ≤ 1 / 200 :=
      abs_round2_sub_le (round2 (d / 1.60934) * 1.60934)
    have h3 : |round2 (d / 1.60934) * 1.60934 - d| ≤ (1 / 200) * 1.60934 := by
      have he : round2 (d / 1.60934) * 1.60934 - d =
          (round2 (d / 1.60934) - d / 1.60934) * 1.60934 := by
        field_simp
      rw [he, abs_mul, abs_of_pos (by norm_num : (0 : ℚ) < 1.60934)]
      gcongr
    calc |round2 (round2 (d / 1.60934) * 1.60934) - d|
        = |(round2 (round2 (d / 1.60934) * 1.60934) -
            round2 (d / 1.60934) * 1.60934) +
            (round2 (d / 1.60934) * 1.60934 - d)| := by congr 1; ring
      _ ≤ |round2 (round2 (d / 1.60934) * 1.60934) -
            round2 (d / 1.60934) * 1.60934| +
            |round2 (d / 1.60934) * 1.60934 - d| := abs_add _ _
      _ ≤ 1 / 200 + (1 / 200) * 1.60934 := add_le_add h2 h3
      _ ≤ 130467 / 10000000 := by norm_num

/-- Claim C10: with the bypass flag (the Continue override of the MPG
warning) no validation is applied — a state whose distance string does
not parse is rejected by the normal path but, under bypass, still
computes and persists a record whose numeric fields are all the string
"NaN". -/
theorem claim_C10 :
    calculateEmissions false (CalcState.mk false "abc" none "23" (some 23) "SUV") =
      none ∧
    calculateEmissions true (CalcState.mk false "abc" none "23" (some 23) "SUV") =
      some (CalculationRecord.mk "NaN" "23" "NaN" "NaN" "NaN" "SUV") := by
  exact ⟨rfl, rfl⟩
